import Mathlib

/-
  Shallow embedding of the trend aggregation engine
  (`src/tools/trends_tool.py`, class `AdvancedGoogleTrendsAnalyzer`).

  Modelling conventions:
  * pandas float arithmetic is modelled over `ℚ` (the spec's thresholds 1.1,
    0.9, 100 are exact rationals);
  * a pandas `DataFrame` is a shared row index plus named columns of values;
  * timestamps are `Nat` labels (chronological order = increasing label);
  * a `try/except` around a provider call is an `Except String _` response:
    `.error` means the call raised, `.ok` is the fetched data;
  * JSON sub-objects of the report that the orchestrator either leaves as the
    initial `{}`, fills with data, or (per the spec's words) could fill with
    an `{"error": ...}` marker are modelled by `SectionVal`:
    `.empty` = `{}`, `.data` = filled, `.withError` = an error-marker object.
-/

namespace TrendsTool

/-- Keyword normalization (`_run`, lines 93-96): a bare string becomes a
one-element list; a list is truncated to its first 5 entries. -/
def normalizeKeywords : Sum String (List String) → List String
  | Sum.inl s => [s]
  | Sum.inr l => l.take 5

/-- An interest-over-time DataFrame: shared timestamp index and one value
column per keyword (plus possibly an `isPartial` column). -/
structure DataFrameQ where
  index : List Nat
  cols : List (String × List ℚ)
deriving DecidableEq

/-- `df.empty` for an interest DataFrame: no rows or no columns. -/
def dfEmpty (df : DataFrameQ) : Bool :=
  df.index.isEmpty || df.cols.isEmpty

/-- `interest_df.drop('isPartial', axis=1)` guarded by the column check
(lines 129-130). -/
def dropIsPartialCol (df : DataFrameQ) : DataFrameQ :=
  ⟨df.index, df.cols.filter (fun c => c.1 ≠ "isPartial")⟩

/-- Arithmetic mean of a list of values (`Series.mean`). Only applied to
nonempty lists by the engine; on `[]` the `ℚ` division yields 0. -/
def meanQ (l : List ℚ) : ℚ := l.sum / (l.length : ℚ)

/-- Leading-window mean (`df[column].head(max(1, data_length // 10)).mean()`,
line 246). -/
def startAvg (vals : List ℚ) : ℚ :=
  meanQ (vals.take (max 1 (vals.length / 10)))

/-- Trailing-window mean (`df[column].tail(max(1, data_length // 10)).mean()`,
line 247): `tail(k)` keeps the last `k` elements. -/
def endAvg (vals : List ℚ) : ℚ :=
  meanQ (vals.drop (vals.length - max 1 (vals.length / 10)))

/-- One keyword's entry of `_analyze_trend_direction`'s result. -/
structure TrendInfo where
  direction : String
  start_average : ℚ
  end_average : ℚ
  change_percentage : ℚ
deriving DecidableEq

/-- Per-column body of `_analyze_trend_direction` (lines 244-261). -/
def analyzeTrendColumn (vals : List ℚ) : TrendInfo :=
  let s := startAvg vals
  let e := endAvg vals
  { direction :=
      if e > s * (11/10) then "Rising"
      else if e < s * (9/10) then "Declining"
      else "Stable"
    start_average := s
    end_average := e
    change_percentage := if s > 0 then (e - s) / s * 100 else 0 }

/-- `_analyze_trend_direction` (lines 239-262): per non-`isPartial` column. -/
def analyzeTrendDirection (df : DataFrameQ) : List (String × TrendInfo) :=
  (df.cols.filter (fun c => c.1 ≠ "isPartial")).map
    (fun c => (c.1, analyzeTrendColumn c.2))

/-- `Series.idxmax` paired with its value: the first (earliest-position)
point attaining the maximum value. -/
def argmaxFirst : List (Nat × ℚ) → Option (Nat × ℚ)
  | [] => none
  | p :: rest =>
    match argmaxFirst rest with
    | none => some p
    | some q => if q.2 > p.2 then some q else some p

/-- `Series.max` on a nonempty list of values. -/
def seriesMax : List ℚ → ℚ
  | [] => 0
  | [x] => x
  | x :: y :: rest => max x (seriesMax (y :: rest))

/-- One keyword's entry of `_find_peak_periods`' result. -/
structure PeakInfo where
  peak_date : Nat
  peak_value : ℚ
deriving DecidableEq

/-- Per-column body of `_find_peak_periods` (lines 231-236):
`max_idx = series.idxmax()`, `max_value = series.max()`. -/
def findPeakColumn (pts : List (Nat × ℚ)) : Option PeakInfo :=
  (argmaxFirst pts).map
    (fun pk => { peak_date := pk.1, peak_value := seriesMax (pts.map Prod.snd) })

/-- `_find_peak_periods` (lines 226-237): per non-`isPartial` column. -/
def findPeakPeriods (df : DataFrameQ) : List (String × PeakInfo) :=
  (df.cols.filter (fun c => c.1 ≠ "isPartial")).filterMap
    (fun c => (findPeakColumn (df.index.zip c.2)).map (fun pk => (c.1, pk)))

/-- `interest_df.mean().to_dict()` (line 136): per-column mean. -/
def averageInterestDf (df : DataFrameQ) : List (String × ℚ) :=
  df.cols.map (fun c => (c.1, meanQ c.2))

/-- The descending-by-value comparison used to model
`sort_values(ascending=False)` on `(region, value)` pairs. -/
def regionGE (a b : String × ℚ) : Prop := b.2 ≤ a.2

instance : DecidableRel regionGE :=
  fun a b => inferInstanceAs (Decidable (b.2 ≤ a.2))

instance : IsTotal (String × ℚ) regionGE :=
  ⟨fun a b => le_total b.2 a.2⟩

instance : IsTrans (String × ℚ) regionGE :=
  ⟨fun _ _ _ hab hbc => le_trans hbc hab⟩

/-- One entry of `_get_top_regions`' per-keyword list. -/
structure RegionEntry where
  region : String
  interest : ℚ
deriving DecidableEq

/-- Per-column body of `_get_top_regions` (lines 268-273):
`df[column].sort_values(ascending=False).head(10)` then keep `value > 0`. -/
def topRegionsColumn (pairs : List (String × ℚ)) : List RegionEntry :=
  (((List.insertionSort regionGE pairs).take 10).filter
      (fun p => decide (0 < p.2))).map
    (fun p => { region := p.1, interest := p.2 })

/-- A regional-interest DataFrame: region index and one column per keyword. -/
structure RegionalDF where
  regions : List String
  cols : List (String × List ℚ)
deriving DecidableEq

/-- `regional_df.empty`. -/
def regionalEmpty (df : RegionalDF) : Bool :=
  df.regions.isEmpty || df.cols.isEmpty

/-- `_get_top_regions` (lines 264-274): per-keyword top-10 positive regions. -/
def getTopRegions (df : RegionalDF) : List (String × List RegionEntry) :=
  df.cols.map (fun c => (c.1, topRegionsColumn (df.regions.zip c.2)))

/-- A raw row of a related-topics / related-queries DataFrame: topic-shaped
rows carry `topic_title`/`topic_type`/`value`, query-shaped rows carry
`query`/`value`. -/
inductive RelRow where
  | topic (title : String) (ttype : String) (value : ℚ)
  | query (q : String) (value : ℚ)
deriving DecidableEq

/-- The provider-assigned score of a raw related row. -/
def rowValue : RelRow → ℚ
  | .topic _ _ v => v
  | .query _ v => v

/-- An output dictionary of `_process_related_data`. -/
inductive OutEntry where
  | topicOut (title : String) (ttype : String) (value : ℚ)
  | queryOut (q : String) (value : ℚ)
deriving DecidableEq

/-- Row conversion inside `_process_related_data`'s loop (lines 213-223):
the `'topic_title' in row` shape dispatch. -/
def convRow : RelRow → OutEntry
  | .topic t ty v => .topicOut t ty v
  | .query q v => .queryOut q v

/-- `_process_related_data` (lines 205-224): `None`/empty input yields `[]`,
otherwise the first 10 rows (`data.head(10)`) are converted. -/
def processRelatedData : Option (List RelRow) → List OutEntry
  | none => []
  | some data => if data.isEmpty then [] else (data.take 10).map convRow

/-- The per-keyword value of `pytrends.related_topics()` /
`related_queries()`: a dict with `top` and `rising` DataFrames, each
possibly `None`. -/
structure RelatedPayload where
  top : Option (List RelRow)
  rising : Option (List RelRow)
deriving DecidableEq

/-- One keyword's processed related section (`{"top": ..., "rising": ...}`,
lines 149-152 / 159-162). -/
structure RelatedSection where
  top : List OutEntry
  rising : List OutEntry
deriving DecidableEq

/-- The external provider (pytrends) as seen through one run's calls; each
field is the outcome of the corresponding guarded call: `.error` models the
call raising an exception. -/
structure Provider where
  buildPayload : Except String Unit
  interest : Except String DataFrameQ
  relatedTopics : String → Except String (Option RelatedPayload)
  relatedQueries : String → Except String (Option RelatedPayload)
  regional : Except String RegionalDF
  trending : Except String (List String)

/-- The related-topics entry the loop body (lines 145-167) records for one
keyword: a raised topics call skips the keyword entirely; a keyword absent
from the dict or mapped to `None` records nothing. -/
def relTopicsEntry (prov : Provider) (k : String) : Option RelatedSection :=
  match prov.relatedTopics k with
  | .error _ => none
  | .ok none => none
  | .ok (some p) =>
    some { top := processRelatedData p.top, rising := processRelatedData p.rising }

/-- The related-queries entry for one keyword: the queries call happens after
the topics call in the same `try` block, so a raised topics call also skips
the queries entry for that keyword. -/
def relQueriesEntry (prov : Provider) (k : String) : Option RelatedSection :=
  match prov.relatedTopics k with
  | .error _ => none
  | .ok _ =>
    match prov.relatedQueries k with
    | .error _ => none
    | .ok none => none
    | .ok (some p) =>
      some { top := processRelatedData p.top, rising := processRelatedData p.rising }

/-- A top-level section of the report JSON: the initial `{}`, a filled data
object, or an `{"error": ...}` marker object (the shape the spec describes). -/
inductive SectionVal (α : Type) where
  | empty
  | data (a : α)
  | withError (msg : String)
deriving DecidableEq

/-- Whether a section object is an error marker. -/
def SectionVal.hasErrorMarker {α : Type} : SectionVal α → Bool
  | .withError _ => true
  | _ => false

/-- Python truthiness of the section's dict (`{}` is falsy). -/
def SectionVal.truthy {α : Type} : SectionVal α → Bool
  | .empty => false
  | _ => true

/-- The filled `interest_over_time` section (lines 132-137). -/
structure InterestSection where
  data : DataFrameQ
  peak_periods : List (String × PeakInfo)
  trend_direction : List (String × TrendInfo)
  average_interest : List (String × ℚ)
deriving DecidableEq

/-- Builds the `interest_over_time` section from a nonempty DataFrame
(lines 128-137): `isPartial` dropped, then records / peaks / trends /
averages. -/
def mkInterestSection (df : DataFrameQ) : InterestSection :=
  let d := dropIsPartialCol df
  { data := d
    peak_periods := findPeakPeriods d
    trend_direction := analyzeTrendDirection d
    average_interest := averageInterestDf d }

/-- The filled `regional_interest` section (lines 174-177). -/
structure RegionalSection where
  by_country : RegionalDF
  top_regions : List (String × List RegionEntry)
deriving DecidableEq

/-- `query_info` (lines 108-115). -/
structure QueryInfo where
  keywords : List String
  timeframe : String
  geo : String
  category : Int
  google_property : String
  analysis_date : String
deriving DecidableEq

/-- A `key_insights` line of `_generate_summary`, with the f-string
rendering abstracted to the structured values it interpolates. -/
inductive Insight where
  | keyword (kw : String) (avg : ℚ) (direction : String)
  | regional (countries : Nat)
deriving DecidableEq

/-- `data_quality` (lines 305-310). -/
structure DataQuality where
  has_time_series : Bool
  has_related_data : Bool
  has_regional_data : Bool
  keywords_analyzed : Nat
deriving DecidableEq

/-- `summary` (lines 278-282). -/
structure Summary where
  key_insights : List Insight
  recommendations : List String
  data_quality : DataQuality
deriving DecidableEq

/-- The assembled report (lines 107-122): the dict `_run` returns as JSON. -/
structure Report where
  query_info : QueryInfo
  interest_over_time : SectionVal InterestSection
  related_topics : List (String × RelatedSection)
  related_queries : List (String × RelatedSection)
  regional_interest : SectionVal RegionalSection
  rising_searches : SectionVal (List String)
  summary : Summary
deriving DecidableEq

/-- `_generate_summary` (lines 276-319), taking the already-built sections. -/
def generateSummary (interest : SectionVal InterestSection)
    (relT relQ : List (String × RelatedSection))
    (regional : SectionVal RegionalSection) (kws : List String) : Summary :=
  let tsInsights : List Insight :=
    match interest with
    | .data sec =>
      kws.filterMap (fun kw =>
        (sec.average_interest.lookup kw).map (fun avg =>
          Insight.keyword kw avg
            ((((sec.trend_direction.lookup kw).map TrendInfo.direction).getD
                "unknown").toLower)))
    | _ => []
  let regInsights : List Insight :=
    match regional with
    | .data sec => [Insight.regional sec.by_country.regions.length]
    | .withError _ => [Insight.regional 0]
    | .empty => []
  { key_insights := tsInsights ++ regInsights
    recommendations :=
      (if kws.length == 1 then
        ["Consider comparing with related keywords for better insights"]
      else []) ++
      (if regional.truthy then []
       else ["Try regional analysis to understand geographic patterns"])
    data_quality :=
      { has_time_series := interest.truthy
        has_related_data := !relT.isEmpty || !relQ.isEmpty
        has_regional_data := regional.truthy
        keywords_analyzed := kws.length } }

/-- The keyword arguments of `_run`. -/
structure ToolInput where
  keywords : Sum String (List String)
  timeframe : String
  geo : String
  category : Int
  gprop : String
  include_related : Bool
  include_regional : Bool
  include_rising : Bool

/-- The body of `_run` after a successful `build_payload` (lines 92-195):
each section's `try/except` block becomes a match on that call's outcome,
with a raised call leaving the section at its initial empty value. -/
def runAnalyzer (inp : ToolInput) (prov : Provider) (now : String) : Report :=
  let kw_list := normalizeKeywords inp.keywords
  let interest : SectionVal InterestSection :=
    match prov.interest with
    | .error _ => .empty
    | .ok df => if dfEmpty df then .empty else .data (mkInterestSection df)
  let relT : List (String × RelatedSection) :=
    if inp.include_related then
      kw_list.filterMap (fun k => (relTopicsEntry prov k).map (fun s => (k, s)))
    else []
  let relQ : List (String × RelatedSection) :=
    if inp.include_related then
      kw_list.filterMap (fun k => (relQueriesEntry prov k).map (fun s => (k, s)))
    else []
  let regional : SectionVal RegionalSection :=
    if inp.include_regional then
      match prov.regional with
      | .error _ => .empty
      | .ok df =>
        if regionalEmpty df then .empty
        else .data { by_country := df, top_regions := getTopRegions df }
    else .empty
  let rising : SectionVal (List String) :=
    if inp.include_rising then
      match prov.trending with
      | .error _ => .empty
      | .ok l => if l.isEmpty then .empty else .data (l.take 10)
    else .empty
  { query_info :=
      { keywords := kw_list
        timeframe := inp.timeframe
        geo := if inp.geo = "" then "Worldwide" else inp.geo
        category := inp.category
        google_property := if inp.gprop = "" then "Web Search" else inp.gprop
        analysis_date := now }
    interest_over_time := interest
    related_topics := relT
    related_queries := relQ
    regional_interest := regional
    rising_searches := rising
    summary := generateSummary interest relT relQ regional kw_list }

/-- The error object built by the outer `except` (lines 197-203). -/
structure ErrorResult where
  error : String
  keywords : List String
  timestamp : String
deriving DecidableEq

/-- `_run` as a whole: a raised `build_payload` (the only call outside the
per-section guards) hits the outer `except` and yields the error object;
otherwise the assembled report is returned. -/
def runTool (inp : ToolInput) (prov : Provider) (now : String) :
    Except ErrorResult Report :=
  let kw_list := normalizeKeywords inp.keywords
  match prov.buildPayload with
  | .error e => .error { error := "Analysis failed: " ++ e, keywords := kw_list, timestamp := now }
  | .ok _ => .ok (runAnalyzer inp prov now)

/-- Replaces the `analysis_date` field of a report's `query_info`. -/
def setAnalysisDate (r : Report) (d : String) : Report :=
  { r with query_info := { r.query_info with analysis_date := d } }

/-- First-occurrence deduplication, the reading of the spec's words
"the first 5 distinct keywords of the list, preserving their original
order" (used to compare the spec against `normalizeKeywords`). -/
def firstDistinct (l : List String) : List String :=
  l.foldl (fun acc a => if a ∈ acc then acc else acc ++ [a]) []

/-! ### Concrete fixtures used by witnesses and counterexamples -/

/-- A representative tool input (two keywords, all sections enabled). -/
def c2Input : ToolInput :=
  { keywords := Sum.inr ["ai"], timeframe := "today 12-m", geo := "", category := 0,
    gprop := "", include_related := true, include_regional := true, include_rising := true }

/-- A provider whose interest-over-time call raises while every other call
succeeds. -/
def c2Prov : Provider :=
  { buildPayload := .ok ()
    interest := .error "timeout"
    relatedTopics := fun _ => .ok none
    relatedQueries := fun _ => .ok none
    regional := .ok ⟨["US"], [("ai", [42])]⟩
    trending := .ok ["x"] }

/-- Eleven raw related-query rows in provider order whose highest-scored
entry comes last. -/
def c8rows : List RelRow :=
  [RelRow.query "k0" 1, RelRow.query "k1" 1, RelRow.query "k2" 1,
   RelRow.query "k3" 1, RelRow.query "k4" 1, RelRow.query "k5" 1,
   RelRow.query "k6" 1, RelRow.query "k7" 1, RelRow.query "k8" 1,
   RelRow.query "k9" 1, RelRow.query "big" 100]

/-- Eleven raw related-query rows already sorted descending by score. -/
def c8sorted : List RelRow :=
  [RelRow.query "s0" 11, RelRow.query "s1" 10, RelRow.query "s2" 9,
   RelRow.query "s3" 8, RelRow.query "s4" 7, RelRow.query "s5" 6,
   RelRow.query "s6" 5, RelRow.query "s7" 4, RelRow.query "s8" 3,
   RelRow.query "s9" 2, RelRow.query "s10" 1]

/-! ### Claim theorems -/

/-- C3 (counterexample): on the 6-entry list `["a","a","b","c","d","e"]` the
engine keeps the first 5 entries verbatim (`keywords[:5]`), which is not the
list of the first 5 distinct keywords: no deduplication happens. -/
theorem keyword_clamp_counterexample :
    (["a", "a", "b", "c", "d", "e"] : List String).length > 5 ∧
    normalizeKeywords (Sum.inr ["a", "a", "b", "c", "d", "e"]) ≠
      (firstDistinct ["a", "a", "b", "c", "d", "e"]).take 5 := by
  decide

/-- C3 (amended): for every keyword list with more than 5 entries, the engine
analyzes exactly the first 5 entries of the list (duplicates retained),
preserving their original order; excess entries are dropped without error. -/
theorem keyword_clamp_first_five (l : List String) (h : 5 < l.length) :
    (normalizeKeywords (Sum.inr l)).length = 5 ∧
    ∀ i : Nat, i < 5 → (normalizeKeywords (Sum.inr l))[i]? = l[i]? := by
  constructor
  · simp only [normalizeKeywords, List.length_take]
    omega
  · intro i hi
    simp [normalizeKeywords, List.getElem?_take, hi]

/-- C3 (witness): the amended clamp evaluated on a concrete 6-entry list. -/
theorem keyword_clamp_witness :
    (normalizeKeywords (Sum.inr ["k1", "k2", "k3", "k4", "k5", "k6"])).length = 5 :=
  (keyword_clamp_first_five ["k1", "k2", "k3", "k4", "k5", "k6"] (by decide)).1

/-- C10: a bare-string keywords argument is wrapped unchanged into a
one-element list — never split, and the 5-entry truncation applies only to
list-typed inputs. -/
theorem string_keyword_bypasses_clamp (s : String) (l : List String)
    (inp : ToolInput) (prov : Provider) (now : String) :
    normalizeKeywords (Sum.inl s) = [s] ∧
    (runAnalyzer { inp with keywords := Sum.inl s } prov now).query_info.keywords = [s] ∧
    (runAnalyzer { inp with keywords := Sum.inr l } prov now).query_info.keywords = l.take 5 :=
  ⟨rfl, rfl, rfl⟩

/-- C9: two runs of the engine on identical inputs and identical provider
responses differ at most in the `analysis_date` field of `query_info` (and
that field is exactly the run's clock reading). -/
theorem deterministic_up_to_analysis_date (inp : ToolInput) (prov : Provider)
    (t₁ t₂ d : String) :
    setAnalysisDate (runAnalyzer inp prov t₁) d = setAnalysisDate (runAnalyzer inp prov t₂) d ∧
    (runAnalyzer inp prov t₁).query_info.analysis_date = t₁ :=
  ⟨rfl, rfl⟩

/-- C5: `change_percentage` is `(end_avg - start_avg) / start_avg * 100` when
`start_avg` is positive and `0` when `start_avg` is `0` — the guard makes the
division-by-zero branch unreachable. -/
theorem change_percentage_guarded (vals : List ℚ) (h : vals ≠ []) :
    (0 < startAvg vals →
      (analyzeTrendColumn vals).change_percentage =
        (endAvg vals - startAvg vals) / startAvg vals * 100) ∧
    (startAvg vals = 0 → (analyzeTrendColumn vals).change_percentage = 0) := by
  have hc : (analyzeTrendColumn vals).change_percentage =
      if startAvg vals > 0 then (endAvg vals - startAvg vals) / startAvg vals * 100
      else 0 := rfl
  constructor
  · intro hs
    rw [hc, if_pos hs]
  · intro hs
    rw [hc, if_neg (by rw [hs]; exact lt_irrefl 0)]

/-- C5 (witness): the spec's own scenario series `[10, 60]` yields a 500%
change. -/
theorem change_percentage_witness :
    (analyzeTrendColumn [(10 : ℚ), 60]).change_percentage = 500 := by
  rw [(change_percentage_guarded [(10 : ℚ), 60] (by simp)).1
    (by norm_num [startAvg, meanQ])]
  norm_num [startAvg, endAvg, meanQ]

/-- C4 (counterexample): on the all-zero one-point series, `end_avg` equals
both `start_avg * 1.2` and `start_avg * 0.8` (all are 0), yet the direction
is `Stable`, not `Rising` or `Declining`: the claim's instantiations fail
when `start_avg = 0`. -/
theorem trend_direction_counterexample :
    endAvg [(0 : ℚ)] = startAvg [(0 : ℚ)] * (12/10) ∧
    endAvg [(0 : ℚ)] = startAvg [(0 : ℚ)] * (8/10) ∧
    (analyzeTrendColumn [(0 : ℚ)]).direction ≠ "Rising" ∧
    (analyzeTrendColumn [(0 : ℚ)]).direction ≠ "Declining" := by
  refine ⟨?_, ?_, ?_, ?_⟩
  · norm_num [startAvg, endAvg, meanQ]
  · norm_num [startAvg, endAvg, meanQ]
  · norm_num [analyzeTrendColumn, startAvg, endAvg, meanQ]
    decide
  · norm_num [analyzeTrendColumn, startAvg, endAvg, meanQ]
    decide

/-- C4 (amended): direction is computed from leading/trailing windows of
`max 1 (N / 10)` points: `Rising` iff `end_avg > start_avg * 1.1`, then
`Declining` iff `end_avg < start_avg * 0.9`, else `Stable`; and
`end_avg = start_avg * 1.2` yields `Rising` and `* 0.8` yields `Declining`
provided `start_avg > 0`, while `* 1.0` yields `Stable` whenever
`start_avg ≥ 0`. -/
theorem trend_direction_thresholds (vals : List ℚ) (h : vals ≠ []) :
    ((analyzeTrendColumn vals).direction = "Rising" ↔
      endAvg vals > startAvg vals * (11/10))
  ∧ (¬ endAvg vals > startAvg vals * (11/10) →
      ((analyzeTrendColumn vals).direction = "Declining" ↔
        endAvg vals < startAvg vals * (9/10)))
  ∧ (¬ endAvg vals > startAvg vals * (11/10) →
      ¬ endAvg vals < startAvg vals * (9/10) →
      (analyzeTrendColumn vals).direction = "Stable")
  ∧ (0 < startAvg vals → endAvg vals = startAvg vals * (12/10) →
      (analyzeTrendColumn vals).direction = "Rising")
  ∧ (0 < startAvg vals → endAvg vals = startAvg vals * (8/10) →
      (analyzeTrendColumn vals).direction = "Declining")
  ∧ (0 ≤ startAvg vals → endAvg vals = startAvg vals →
      (analyzeTrendColumn vals).direction = "Stable") := by
  have hd : (analyzeTrendColumn vals).direction =
      if endAvg vals > startAvg vals * (11/10) then "Rising"
      else if endAvg vals < startAvg vals * (9/10) then "Declining"
      else "Stable" := rfl
  refine ⟨?_, ?_, ?_, ?_, ?_, ?_⟩
  · rw [hd]
    split_ifs with h1 h2
    · simp [h1]
    · simp [h1]
    · simp [h1]
  · intro h1
    rw [hd, if_neg h1]
    split_ifs with h2
    · simp [h2]
    · simp [h2]
  · intro h1 h2
    rw [hd, if_neg h1, if_neg h2]
  · intro hs he
    rw [hd, if_pos (by rw [he]; linarith)]
  · intro hs he
    have h1 : ¬ endAvg vals > startAvg vals * (11/10) := by
      rw [he]; intro hcon; linarith
    rw [hd, if_neg h1, if_pos (by rw [he]; linarith)]
  · intro hs he
    have h1 : ¬ endAvg vals > startAvg vals * (11/10) := by
      rw [he]; intro hcon; linarith
    have h2 : ¬ endAvg vals < startAvg vals * (9/10) := by
      rw [he]; intro hcon; linarith
    rw [hd, if_neg h1, if_neg h2]

/-- C4 (witness): the series `[10, 12]` has `end_avg = start_avg * 1.2 > 0`
and is classified `Rising`. -/
theorem trend_direction_witness :
    (analyzeTrendColumn [(10 : ℚ), 12]).direction = "Rising" :=
  (trend_direction_thresholds [(10 : ℚ), 12] (by simp)).2.2.2.1
    (by norm_num [startAvg, meanQ]) (by norm_num [startAvg, endAvg, meanQ])

/-- C2 (counterexample): in a run whose interest-over-time fetch raises, the
`interest_over_time` section of the returned report is the untouched initial
empty object — it carries no error marker. -/
theorem error_marker_counterexample :
    c2Prov.interest = Except.error "timeout" ∧
    (runAnalyzer c2Input c2Prov "2024-01-01").interest_over_time = SectionVal.empty ∧
    (runAnalyzer c2Input c2Prov "2024-01-01").interest_over_time.hasErrorMarker = false :=
  ⟨rfl, rfl, rfl⟩

/-- C2 (amended): sections degraded by a raised provider call are left at
their initial empty value (the error is only logged); no section of any
report ever carries an error marker. -/
theorem degraded_sections_left_empty (inp : ToolInput) (prov : Provider)
    (now e : String) :
    ((runAnalyzer inp prov now).interest_over_time.hasErrorMarker = false)
  ∧ ((runAnalyzer inp prov now).regional_interest.hasErrorMarker = false)
  ∧ ((runAnalyzer inp prov now).rising_searches.hasErrorMarker = false)
  ∧ (prov.interest = .error e →
      (runAnalyzer inp prov now).interest_over_time = .empty)
  ∧ (prov.regional = .error e →
      (runAnalyzer inp prov now).regional_interest = .empty)
  ∧ (prov.trending = .error e →
      (runAnalyzer inp prov now).rising_searches = .empty) := by
  have hI : (runAnalyzer inp prov now).interest_over_time =
      (match prov.interest with
        | .error _ => SectionVal.empty
        | .ok df => if dfEmpty df then .empty else .data (mkInterestSection df)) := rfl
  have hR : (runAnalyzer inp prov now).regional_interest =
      (if inp.include_regional then
        match prov.regional with
        | .error _ => SectionVal.empty
        | .ok df =>
          if regionalEmpty df then .empty
          else .data { by_country := df, top_regions := getTopRegions df }
      else .empty) := rfl
  have hS : (runAnalyzer inp prov now).rising_searches =
      (if inp.include_rising then
        match prov.trending with
        | .error _ => SectionVal.empty
        | .ok l => if l.isEmpty then .empty else .data (l.take 10)
      else .empty) := rfl
  refine ⟨?_, ?_, ?_, ?_, ?_, ?_⟩
  · rw [hI]
    cases prov.interest with
    | error e' => rfl
    | ok df =>
      show (if dfEmpty df then SectionVal.empty
        else SectionVal.data (mkInterestSection df)).hasErrorMarker = false
      split_ifs <;> rfl
  · rw [hR]
    split_ifs
    · cases prov.regional with
      | error e' => rfl
      | ok df =>
        show (if regionalEmpty df then SectionVal.empty
          else SectionVal.data
            ({ by_country := df, top_regions := getTopRegions df } :
              RegionalSection)).hasErrorMarker = false
        split_ifs <;> rfl
    · rfl
  · rw [hS]
    split_ifs
    · cases prov.trending with
      | error e' => rfl
      | ok l =>
        show (if l.isEmpty then SectionVal.empty
          else SectionVal.data (l.take 10)).hasErrorMarker = false
        split_ifs <;> rfl
    · rfl
  · intro hpi
    rw [hI, hpi]
  · intro hpr
    rw [hR]
    split_ifs
    · rw [hpr]
    · rfl
  · intro hpt
    rw [hS]
    split_ifs
    · rw [hpt]
    · rfl

/-- C2 (witness): the amended statement applied to the concrete failing run. -/
theorem degraded_sections_witness :
    (runAnalyzer c2Input c2Prov "2024-01-01").interest_over_time = SectionVal.empty :=
  (degraded_sections_left_empty c2Input c2Prov "2024-01-01" "timeout").2.2.2.1 rfl

/-! ### Helper lemmas about `seriesMax` and `argmaxFirst` -/

lemma argmaxFirst_cons (p : Nat × ℚ) (rest : List (Nat × ℚ)) :
    argmaxFirst (p :: rest) =
      match argmaxFirst rest with
      | none => some p
      | some q => if q.2 > p.2 then some q else some p := rfl

lemma le_seriesMax (l : List ℚ) : ∀ x ∈ l, x ≤ seriesMax l := by
  induction l with
  | nil => simp
  | cons a t ih =>
    cases t with
    | nil =>
      intro x hx
      rw [List.mem_singleton.mp hx]
      exact le_refl _
    | cons b t' =>
      intro x hx
      show x ≤ max a (seriesMax (b :: t'))
      rcases List.mem_cons.mp hx with h | h
      · rw [h]; exact le_max_left _ _
      · exact le_trans (ih x h) (le_max_right _ _)

lemma seriesMax_mem (l : List ℚ) (h : l ≠ []) : seriesMax l ∈ l := by
  induction l with
  | nil => exact absurd rfl h
  | cons a t ih =>
    cases t with
    | nil => exact List.mem_singleton.mpr rfl
    | cons b t' =>
      show max a (seriesMax (b :: t')) ∈ a :: b :: t'
      rcases max_cases a (seriesMax (b :: t')) with ⟨he, _⟩ | ⟨he, _⟩
      · rw [he]; exact List.mem_cons_self _ _
      · rw [he]; exact List.mem_cons_of_mem _ (ih (by simp))

lemma argmaxFirst_spec (pts : List (Nat × ℚ)) (h : pts ≠ []) :
    ∃ pk, argmaxFirst pts = some pk ∧ pk ∈ pts ∧ (∀ q ∈ pts, q.2 ≤ pk.2) ∧
      (pts.Pairwise (fun a b => a.1 < b.1) →
        ∀ q ∈ pts, q.2 = pk.2 → pk.1 ≤ q.1) := by
  induction pts with
  | nil => exact absurd rfl h
  | cons p rest ih =>
    by_cases hrest : rest = []
    · subst hrest
      refine ⟨p, rfl, List.mem_cons_self _ _, ?_, ?_⟩
      · intro q hq
        rw [List.mem_singleton.mp hq]
      · intro _ q hq _
        rw [List.mem_singleton.mp hq]
    · obtain ⟨pk', heq, hmem, hmax, htie⟩ := ih hrest
      have hms : argmaxFirst (p :: rest) =
          if pk'.2 > p.2 then some pk' else some p := by
        rw [argmaxFirst_cons, heq]
      by_cases hgt : pk'.2 > p.2
      · refine ⟨pk', ?_, List.mem_cons_of_mem _ hmem, ?_, ?_⟩
        · rw [hms, if_pos hgt]
        · intro q hq
          rcases List.mem_cons.mp hq with h' | h'
          · rw [h']; exact le_of_lt hgt
          · exact hmax q h'
        · intro hchron q hq hq2
          rcases List.mem_cons.mp hq with h' | h'
          · subst h'
            exact absurd hq2 (ne_of_lt hgt)
          · exact htie hchron.of_cons q h' hq2
      · refine ⟨p, ?_, List.mem_cons_self _ _, ?_, ?_⟩
        · rw [hms, if_neg hgt]
        · intro q hq
          rcases List.mem_cons.mp hq with h' | h'
          · rw [h']
          · exact le_trans (hmax q h') (not_lt.mp hgt)
        · intro hchron q hq _
          rcases List.mem_cons.mp hq with h' | h'
          · rw [h']
          · exact le_of_lt ((List.pairwise_cons.mp hchron).1 q h')

/-- C6: on a nonempty chronologically ordered series, the reported peak is a
point of maximum value, and among points sharing the maximum value the one
with the earliest timestamp is selected. -/
theorem peak_earliest_on_ties (pts : List (Nat × ℚ)) (h : pts ≠ [])
    (hc : pts.Pairwise (fun a b => a.1 < b.1)) :
    ∃ pk : Nat × ℚ, pk ∈ pts ∧
      findPeakColumn pts = some { peak_date := pk.1, peak_value := pk.2 } ∧
      (∀ q ∈ pts, q.2 ≤ pk.2) ∧
      (∀ q ∈ pts, q.2 = pk.2 → pk.1 ≤ q.1) := by
  obtain ⟨pk, heq, hmem, hmax, htie⟩ := argmaxFirst_spec pts h
  refine ⟨pk, hmem, ?_, hmax, htie hc⟩
  have hsm : seriesMax (pts.map Prod.snd) = pk.2 := by
    apply le_antisymm
    · obtain ⟨q, hq, hqe⟩ :=
        List.mem_map.mp (seriesMax_mem (pts.map Prod.snd) (by simpa using h))
      rw [← hqe]
      exact hmax q hq
    · exact le_seriesMax _ pk.2 (List.mem_map_of_mem _ hmem)
  simp only [findPeakColumn]
  rw [heq]
  simp [hsm]

/-- C6 (witness): in the series `[(1,5), (2,9), (3,9)]` the two points of
maximum value 9 are resolved to the earlier timestamp 2. -/
theorem peak_earliest_witness :
    ∃ pk : Nat × ℚ, pk ∈ [(1, (5 : ℚ)), (2, 9), (3, 9)] ∧
      findPeakColumn [(1, (5 : ℚ)), (2, 9), (3, 9)] =
        some { peak_date := pk.1, peak_value := pk.2 } ∧
      (∀ q ∈ [(1, (5 : ℚ)), (2, 9), (3, 9)], q.2 ≤ pk.2) ∧
      (∀ q ∈ [(1, (5 : ℚ)), (2, 9), (3, 9)], q.2 = pk.2 → pk.1 ≤ q.1) :=
  peak_earliest_on_ties [(1, (5 : ℚ)), (2, 9), (3, 9)] (by simp)
    (by simp [List.pairwise_cons])

/-- C7: a per-keyword top-regions list is descending by interest value, has
at most 10 entries, and contains no entry with value ≤ 0. -/
theorem top_regions_spec (pairs : List (String × ℚ)) :
    (topRegionsColumn pairs).length ≤ 10 ∧
    (∀ r ∈ topRegionsColumn pairs, 0 < r.interest) ∧
    (topRegionsColumn pairs).Pairwise (fun a b => b.interest ≤ a.interest) := by
  refine ⟨?_, ?_, ?_⟩
  · simp only [topRegionsColumn, List.length_map]
    exact le_trans (List.length_filter_le _ _) (List.length_take_le 10 _)
  · intro r hr
    simp only [topRegionsColumn, List.mem_map] at hr
    obtain ⟨p, hp, hpe⟩ := hr
    have hpos := List.of_mem_filter hp
    rw [← hpe]
    simpa using hpos
  · have hs : List.Pairwise regionGE (List.insertionSort regionGE pairs) :=
      List.sorted_insertionSort regionGE pairs
    have ht : List.Pairwise regionGE ((List.insertionSort regionGE pairs).take 10) :=
      hs.sublist (List.take_sublist _ _)
    have hf : List.Pairwise regionGE
        (((List.insertionSort regionGE pairs).take 10).filter
          (fun p => decide (0 < p.2))) :=
      ht.sublist (List.filter_sublist _)
    show (((List.insertionSort regionGE pairs).take 10).filter
        (fun p => decide (0 < p.2))).map
          (fun p => ({ region := p.1, interest := p.2 } : RegionEntry))
      |>.Pairwise (fun a b => b.interest ≤ a.interest)
    exact hf.map _ (fun a b hab => hab)

/-- C8 (counterexample): on eleven provider rows whose highest-scored entry
comes last, the processed output (the first 10 rows) omits that top-scored
entry, so it is not the top 10 by provider-assigned score. -/
theorem related_top10_counterexample :
    RelRow.query "big" 100 ∈ c8rows ∧
    (∀ r ∈ c8rows, rowValue r ≤ 100) ∧
    OutEntry.queryOut "big" 100 ∉ processRelatedData (some c8rows) := by
  refine ⟨?_, ?_, ?_⟩
  · simp [c8rows]
  · intro r hr
    fin_cases hr <;> norm_num [rowValue]
  · simp [processRelatedData, c8rows, convRow]

/-- C8 (amended): the processed output is exactly the first 10 entries in
provider order (so when the provider returns rows sorted descending by
score, every omitted row scores no higher than any kept row), and a missing
(`None`) or empty input yields an empty list, never an error. -/
theorem related_first_ten (data : List RelRow) :
    processRelatedData none = [] ∧
    processRelatedData (some []) = [] ∧
    processRelatedData (some data) = (data.take 10).map convRow ∧
    (processRelatedData (some data)).length ≤ 10 ∧
    (data.Pairwise (fun a b => rowValue b ≤ rowValue a) →
      ∀ x ∈ data.drop 10, ∀ y ∈ data.take 10, rowValue x ≤ rowValue y) := by
  have h3 : processRelatedData (some data) = (data.take 10).map convRow := by
    by_cases hd : data.isEmpty
    · rw [List.isEmpty_iff.mp hd]
      rfl
    · show (if data.isEmpty then [] else (data.take 10).map convRow) = _
      rw [if_neg hd]
  refine ⟨rfl, rfl, h3, ?_, ?_⟩
  · rw [h3, List.length_map]
    exact List.length_take_le 10 data
  · intro hp x hx y hy
    have hp' : List.Pairwise (fun a b => rowValue b ≤ rowValue a)
        (data.take 10 ++ data.drop 10) := by
      rw [List.take_append_drop]
      exact hp
    exact (List.pairwise_append.mp hp').2.2 y hy x hx

/-- C8 (witness): on eleven rows pre-sorted descending by score, every
dropped row scores no higher than any kept row. -/
theorem related_first_ten_witness :
    ∀ x ∈ c8sorted.drop 10, ∀ y ∈ c8sorted.take 10, rowValue x ≤ rowValue y :=
  (related_first_ten c8sorted).2.2.2.2
    (by norm_num [c8sorted, List.pairwise_cons, rowValue])

/-- C1: partial-failure isolation. When `build_payload` succeeds the call
returns a Report (never an error object), and injecting a raised call into
any single section fetch — interest-over-time, regional interest, trending
searches, or the per-keyword related-data pair — leaves every other section
of the returned Report unchanged; moreover a keyword's related entries
depend only on that keyword's own fetch outcomes, so a failure for one
keyword cannot disturb another keyword's sections. -/
theorem partial_failure_isolation (inp : ToolInput) (prov : Provider)
    (now e : String) (hb : prov.buildPayload = Except.ok ()) :
    (runTool inp prov now = Except.ok (runAnalyzer inp prov now))
  ∧ (runTool inp { prov with interest := Except.error e } now =
      Except.ok (runAnalyzer inp { prov with interest := Except.error e } now))
  ∧ ((runAnalyzer inp { prov with interest := Except.error e } now).related_topics =
      (runAnalyzer inp prov now).related_topics)
  ∧ ((runAnalyzer inp { prov with interest := Except.error e } now).related_queries =
      (runAnalyzer inp prov now).related_queries)
  ∧ ((runAnalyzer inp { prov with interest := Except.error e } now).regional_interest =
      (runAnalyzer inp prov now).regional_interest)
  ∧ ((runAnalyzer inp { prov with interest := Except.error e } now).rising_searches =
      (runAnalyzer inp prov now).rising_searches)
  ∧ ((runAnalyzer inp { prov with interest := Except.error e } now).query_info =
      (runAnalyzer inp prov now).query_info)
  ∧ ((runAnalyzer inp { prov with regional := Except.error e } now).interest_over_time =
      (runAnalyzer inp prov now).interest_over_time)
  ∧ ((runAnalyzer inp { prov with regional := Except.error e } now).related_topics =
      (runAnalyzer inp prov now).related_topics)
  ∧ ((runAnalyzer inp { prov with regional := Except.error e } now).related_queries =
      (runAnalyzer inp prov now).related_queries)
  ∧ ((runAnalyzer inp { prov with regional := Except.error e } now).rising_searches =
      (runAnalyzer inp prov now).rising_searches)
  ∧ ((runAnalyzer inp { prov with regional := Except.error e } now).query_info =
      (runAnalyzer inp prov now).query_info)
  ∧ ((runAnalyzer inp { prov with trending := Except.error e } now).interest_over_time =
      (runAnalyzer inp prov now).interest_over_time)
  ∧ ((runAnalyzer inp { prov with trending := Except.error e } now).related_topics =
      (runAnalyzer inp prov now).related_topics)
  ∧ ((runAnalyzer inp { prov with trending := Except.error e } now).related_queries =
      (runAnalyzer inp prov now).related_queries)
  ∧ ((runAnalyzer inp { prov with trending := Except.error e } now).regional_interest =
      (runAnalyzer inp prov now).regional_interest)
  ∧ ((runAnalyzer inp { prov with trending := Except.error e } now).query_info =
      (runAnalyzer inp prov now).query_info)
  ∧ ((runAnalyzer inp { prov with
        relatedTopics := fun _ => Except.error e
        relatedQueries := fun _ => Except.error e } now).interest_over_time =
      (runAnalyzer inp prov now).interest_over_time)
  ∧ ((runAnalyzer inp { prov with
        relatedTopics := fun _ => Except.error e
        relatedQueries := fun _ => Except.error e } now).regional_interest =
      (runAnalyzer inp prov now).regional_interest)
  ∧ ((runAnalyzer inp { prov with
        relatedTopics := fun _ => Except.error e
        relatedQueries := fun _ => Except.error e } now).rising_searches =
      (runAnalyzer inp prov now).rising_searches)
  ∧ ((runAnalyzer inp { prov with
        relatedTopics := fun _ => Except.error e
        relatedQueries := fun _ => Except.error e } now).query_info =
      (runAnalyzer inp prov now).query_info)
  ∧ (∀ (p₂ : Provider) (k : String),
      p₂.relatedTopics k = prov.relatedTopics k →
      p₂.relatedQueries k = prov.relatedQueries k →
      relTopicsEntry p₂ k = relTopicsEntry prov k ∧
      relQueriesEntry p₂ k = relQueriesEntry prov k) := by
  refine ⟨?_, ?_, rfl, rfl, rfl, rfl, rfl, rfl, rfl, rfl, rfl, rfl, rfl, rfl,
    rfl, rfl, rfl, rfl, rfl, rfl, rfl, ?_⟩
  · simp [runTool, hb]
  · simp [runTool, hb]
  · intro p₂ k h1 h2
    constructor
    · unfold relTopicsEntry
      rw [h1]
    · unfold relQueriesEntry
      rw [h1, h2]

/-- C1 (witness): with a concrete provider whose interest fetch is made to
raise, the regional section of the returned report is unchanged and the call
still returns a Report. -/
theorem partial_failure_witness :
    runTool c2Input c2Prov "2024-01-01" =
      Except.ok (runAnalyzer c2Input c2Prov "2024-01-01") ∧
    (runAnalyzer c2Input { c2Prov with regional := Except.error "down" }
        "2024-01-01").interest_over_time =
      (runAnalyzer c2Input c2Prov "2024-01-01").interest_over_time :=
  ⟨(partial_failure_isolation c2Input c2Prov "2024-01-01" "down" rfl).1,
   (partial_failure_isolation c2Input c2Prov "2024-01-01" "down" rfl).2.2.2.2.2.2.2.1⟩

end TrendsTool
